import Mathlib

/-!
Verification development for the Envoy SSL context configuration contract
(`include/envoy/ssl/context_config.h`).

The repository source is a pure-virtual interface: it declares the query
surface (`ContextConfig`, `ClientContextConfig`, `ServerContextConfig`) and
documents the behaviour its implementations must have.  The behavioural parts
(the peer-certificate validation policy, the secret-subscription / snapshot
rotation protocol, the session-ticket keyring and load-time validation) are
not implemented in this tree, so they are modelled here from the accompanying
specification and from the interface's own doc comments.
-/

namespace Envoy
namespace Ssl

/-- Source tag for certificate / trust material: supplied as inline bytes or
read from a filesystem path. -/
inductive SourceTag where
  | inlineBytes
  | path (p : String)
deriving DecidableEq

/-- The certificate config used to identify the local side: certificate chain
bytes, private key bytes, and a source tag.  Immutable once constructed. -/
structure TlsCertificateConfig where
  certChain : List Nat
  privateKey : List Nat
  source : SourceTag
deriving DecidableEq

/-- Trust anchor: CA certificate bytes plus source tag, and an optional CRL
(bytes plus source tag). -/
structure TrustAnchor where
  caCert : List Nat
  caSource : SourceTag
  crl : Option (List Nat × SourceTag)
deriving DecidableEq

/-- Immutable bundle of resolved certificate and trust material for one
generation; replaced wholesale, never field-mutated. -/
structure SecretSnapshot where
  tlsCert : TlsCertificateConfig
  trust : TrustAnchor
deriving DecidableEq

/-- Peer verification criteria: SAN patterns, hex SHA-256 certificate hashes,
hex SHA-256 SPKI hashes, and the allow-expired flag.  Any list may be empty,
meaning no constraint from that filter. -/
structure VerificationCriteria where
  sanList : List String
  certHashList : List String
  spkiList : List String
  allowExpired : Bool
deriving DecidableEq

/-- Protocol policy: min/max protocol version, colon-delimited cipher-suite
list, ECDH curve list, primary ALPN list, alternate ALPN list. -/
structure ProtocolPolicy where
  minVersion : Nat
  maxVersion : Nat
  cipherSuites : String
  ecdhCurves : String
  alpn : String
  altAlpn : String
deriving DecidableEq

/-- A session ticket key: 16-byte name (lookup identifier), 32-byte HMAC key,
32-byte AES key.  Field names follow `ServerContextConfig::SessionTicketKey`. -/
structure SessionTicketKey where
  name_ : List Nat
  hmac_key_ : List Nat
  aes_key_ : List Nat
deriving DecidableEq

/-- The abstraction of a peer leaf certificate that the validation policy
inspects: its subject alternative names, its hex-encoded SHA-256 certificate
hash, its hex-encoded SHA-256 SPKI hash, its validity window and a serial
number used for CRL lookup. -/
structure PeerCertificate where
  subjectAltNames : List String
  certHash : String
  spkiHash : String
  notBefore : Nat
  notAfter : Nat
  serial : Nat
deriving DecidableEq

/-- Structured failure reason reported by the validation policy. -/
inductive FailReason where
  | revoked
  | expired
  | sanMismatch
  | certHashMismatch
  | spkiMismatch
deriving DecidableEq

/-- Result of evaluating a peer certificate against the criteria. -/
inductive EvalResult where
  | pass
  | fail (r : FailReason)
deriving DecidableEq

/-- Modelled from the spec: SAN matching supports exact DNS-name entries and
wildcard entries of the form `*.domain` (the wildcard covers exactly one
non-empty leftmost label); the concrete matching routine lives in the
handshake layer, which is outside this repository. -/
def sanEntryMatches (pat san : String) : Bool :=
  match pat.data with
  | '*' :: '.' :: rest =>
      let suffix := '.' :: rest
      let stem := san.data.take (san.data.length - suffix.length)
      suffix.isSuffixOf san.data && stem.length > 0 && !(stem.contains '.')
  | _ => pat.data == san.data

/-- A filter passes when it is empty (vacuously satisfied) or at least one of
its entries matches. -/
def filterSatisfied (entries : List String) (matchesEntry : String → Bool) : Bool :=
  entries.isEmpty || entries.any matchesEntry

/-- The SAN filter: some configured pattern matches some SAN of the leaf. -/
def sanFilterSatisfied (vc : VerificationCriteria) (cert : PeerCertificate) : Bool :=
  filterSatisfied vc.sanList (fun pat => cert.subjectAltNames.any (fun san => sanEntryMatches pat san))

/-- The certificate-hash filter: some configured hash equals the leaf's hash. -/
def certHashFilterSatisfied (vc : VerificationCriteria) (cert : PeerCertificate) : Bool :=
  filterSatisfied vc.certHashList (fun h => h == cert.certHash)

/-- The SPKI filter: some configured hash equals the leaf's SPKI hash. -/
def spkiFilterSatisfied (vc : VerificationCriteria) (cert : PeerCertificate) : Bool :=
  filterSatisfied vc.spkiList (fun h => h == cert.spkiHash)

/-- The current time lies inside the certificate's not-before/not-after
window. -/
def timeValid (now : Nat) (cert : PeerCertificate) : Bool :=
  Nat.ble cert.notBefore now && Nat.ble now cert.notAfter

/-- The certificate is identified as revoked by the configured CRL (when no
CRL is configured, nothing is revoked). -/
def crlRevoked (crl : Option (List Nat)) (cert : PeerCertificate) : Bool :=
  match crl with
  | some revokedSerials => revokedSerials.contains cert.serial
  | none => false

/-- Modelled from the spec: `ValidationPolicy.evaluate` is not implemented in
this tree (the header only declares the criteria accessors).  A certificate
identified as revoked by a configured CRL fails regardless of other filters;
unless `allowExpired` is set, a current time outside the validity window
fails; otherwise each non-empty filter (SAN, certificate hash, SPKI) must be
satisfied, and the verdict is the logical AND of the non-empty filters. -/
def ValidationPolicy.evaluate (vc : VerificationCriteria) (crl : Option (List Nat))
    (cert : PeerCertificate) (now : Nat) : EvalResult :=
  if crlRevoked crl cert then .fail .revoked
  else if !vc.allowExpired && !timeValid now cert then .fail .expired
  else if !sanFilterSatisfied vc cert then .fail .sanMismatch
  else if !certHashFilterSatisfied vc cert then .fail .certHashMismatch
  else if !spkiFilterSatisfied vc cert then .fail .spkiMismatch
  else .pass

/-! ## Session ticket keyring -/

/-- A session ticket: it records the 16-byte name of the key that encrypted
it (so that decryption can select the candidate key by name) and the
encrypted session bytes. -/
structure SessionTicket where
  keyName : List Nat
  body : List Nat
deriving DecidableEq

/-- Byte `i` of the keystream derived from a session ticket key's AES key. -/
def keyByte (k : SessionTicketKey) (i : Nat) : Nat :=
  k.aes_key_.getD (i % 32) 0

/-- Modelled from the spec: the ticket cipher itself lives in the TLS
handshake/crypto layer, outside this repository; it is modelled as a
position-dependent additive stream cipher over bytes. -/
def encryptFrom (k : SessionTicketKey) (i : Nat) : List Nat → List Nat
  | [] => []
  | b :: rest => (b + keyByte k i) % 256 :: encryptFrom k (i + 1) rest

/-- Inverse of `encryptFrom` on byte values below 256. -/
def decryptFrom (k : SessionTicketKey) (i : Nat) : List Nat → List Nat
  | [] => []
  | b :: rest => (b + 256 - keyByte k i % 256) % 256 :: decryptFrom k (i + 1) rest

/-- Modelled from the spec: issuing a new ticket uses the first key of the
configured ordered key list (and only that key); the ticket carries that
key's name.  With an empty keyring no ticket can be issued. -/
def encryptTicket (keys : List SessionTicketKey) (s : List Nat) : Option SessionTicket :=
  match keys with
  | [] => none
  | k :: _ => some { keyName := k.name_, body := encryptFrom k 0 s }

/-- Modelled from the spec: decryption looks the candidate key up by the
16-byte name stored in the ticket — every element of the configured list is a
candidate — and fails when no configured key has that name. -/
def decryptTicket (keys : List SessionTicketKey) (t : SessionTicket) : Option (List Nat) :=
  match keys.find? (fun k => k.name_ == t.keyName) with
  | some k => some (decryptFrom k 0 t.body)
  | none => none

/-! ## Config state, construction and accessors -/

/-- The state of a context config: static protocol policy and verification
criteria fixed at construction, the atomically-replaceable current snapshot
(`none` until the first successful install), the single registered
update-callback slot (callbacks are identified by a numeric id), the
client-variant fields (SNI, renegotiation flag) and the server-variant fields
(require-client-certificate flag, session ticket keyring). -/
structure ConfigState where
  policy : ProtocolPolicy
  criteria : VerificationCriteria
  snapshot : Option SecretSnapshot
  callback : Option Nat
  sni : String
  allowReneg : Bool
  requireClientCert : Bool
  keyring : List SessionTicketKey
deriving DecidableEq

/-- Load-time configuration errors. -/
inductive ConfigError where
  | configValidationError (msg : String)
deriving DecidableEq

/-- A session ticket key has the mandatory field lengths 16/32/32. -/
def validSessionTicketKey (k : SessionTicketKey) : Bool :=
  k.name_.length == 16 && k.hmac_key_.length == 32 && k.aes_key_.length == 32

/-- Modelled from the spec: constructing a config validates it at load time —
`minVersion > maxVersion` and wrong-length session ticket keys are fatal
`ConfigValidationError`s, and a config that fails validation is never
produced (so it can never become ready).  A fresh config has no snapshot and
no registered callback. -/
def mkContextConfig (policy : ProtocolPolicy) (criteria : VerificationCriteria)
    (sni : String) (allowReneg : Bool) (requireClientCert : Bool)
    (keyring : List SessionTicketKey) : Except ConfigError ConfigState :=
  if policy.maxVersion < policy.minVersion then
    .error (.configValidationError "min protocol version exceeds max protocol version")
  else if !keyring.all validSessionTicketKey then
    .error (.configValidationError "wrong-length session ticket key")
  else
    .ok { policy := policy, criteria := criteria, snapshot := none, callback := none,
          sni := sni, allowReneg := allowReneg, requireClientCert := requireClientCert,
          keyring := keyring }

/-- Error returned by an accessor invoked on a config that is not ready. -/
inductive AccessError where
  | notReady
deriving DecidableEq

/-- `isReady` is true iff a snapshot has been successfully installed. -/
def ConfigState.isReady (st : ConfigState) : Bool :=
  st.snapshot.isSome

/-- Renders a source tag the way the path accessors report it: the literal
sentinel for inline material, the configured path otherwise. -/
def sourcePathString (tag : SourceTag) : String :=
  match tag with
  | .inlineBytes => "<inline>"
  | .path p => p

/-- Modelled from the spec: before the first snapshot installs, every
accessor fails loudly instead of returning a default. -/
def ConfigState.alpnProtocols (st : ConfigState) : Except AccessError String :=
  match st.snapshot with
  | some _ => .ok st.policy.alpn
  | none => .error .notReady

/-- The alternate ALPN list served via kill switch. -/
def ConfigState.altAlpnProtocols (st : ConfigState) : Except AccessError String :=
  match st.snapshot with
  | some _ => .ok st.policy.altAlpn
  | none => .error .notReady

/-- The colon-delimited list of supported cipher suites. -/
def ConfigState.cipherSuites (st : ConfigState) : Except AccessError String :=
  match st.snapshot with
  | some _ => .ok st.policy.cipherSuites
  | none => .error .notReady

/-- The colon-delimited list of supported ECDH curves. -/
def ConfigState.ecdhCurves (st : ConfigState) : Except AccessError String :=
  match st.snapshot with
  | some _ => .ok st.policy.ecdhCurves
  | none => .error .notReady

/-- The CA certificate bytes from the current snapshot's trust anchor. -/
def ConfigState.caCert (st : ConfigState) : Except AccessError (List Nat) :=
  match st.snapshot with
  | some snap => .ok snap.trust.caCert
  | none => .error .notReady

/-- Path of the CA certificate, or the literal sentinel when it was
inlined. -/
def ConfigState.caCertPath (st : ConfigState) : Except AccessError String :=
  match st.snapshot with
  | some snap => .ok (sourcePathString snap.trust.caSource)
  | none => .error .notReady

/-- The CRL bytes from the current snapshot (empty when no CRL is
configured). -/
def ConfigState.certificateRevocationList (st : ConfigState) : Except AccessError (List Nat) :=
  match st.snapshot with
  | some snap =>
      match snap.trust.crl with
      | some (bytes, _) => .ok bytes
      | none => .ok []
  | none => .error .notReady

/-- Path of the CRL, or the literal sentinel when it was inlined (empty
string when no CRL is configured). -/
def ConfigState.certificateRevocationListPath (st : ConfigState) : Except AccessError String :=
  match st.snapshot with
  | some snap =>
      match snap.trust.crl with
      | some (_, tag) => .ok (sourcePathString tag)
      | none => .ok ""
  | none => .error .notReady

/-- The current snapshot's certificate config identifying the local side. -/
def ConfigState.tlsCertificate (st : ConfigState) : Except AccessError TlsCertificateConfig :=
  match st.snapshot with
  | some snap => .ok snap.tlsCert
  | none => .error .notReady

/-- The subject alt names to be verified. -/
def ConfigState.verifySubjectAltNameList (st : ConfigState) : Except AccessError (List String) :=
  match st.snapshot with
  | some _ => .ok st.criteria.sanList
  | none => .error .notReady

/-- The hex-encoded SHA-256 certificate hashes to be verified. -/
def ConfigState.verifyCertificateHashList (st : ConfigState) : Except AccessError (List String) :=
  match st.snapshot with
  | some _ => .ok st.criteria.certHashList
  | none => .error .notReady

/-- The hex-encoded SHA-256 SPKI hashes to be verified. -/
def ConfigState.verifyCertificateSpkiList (st : ConfigState) : Except AccessError (List String) :=
  match st.snapshot with
  | some _ => .ok st.criteria.spkiList
  | none => .error .notReady

/-- Whether to ignore expired certificates (both too new and too old). -/
def ConfigState.allowExpiredCertificate (st : ConfigState) : Except AccessError Bool :=
  match st.snapshot with
  | some _ => .ok st.criteria.allowExpired
  | none => .error .notReady

/-- The minimum TLS protocol version to negotiate. -/
def ConfigState.minProtocolVersion (st : ConfigState) : Except AccessError Nat :=
  match st.snapshot with
  | some _ => .ok st.policy.minVersion
  | none => .error .notReady

/-- The maximum TLS protocol version to negotiate. -/
def ConfigState.maxProtocolVersion (st : ConfigState) : Except AccessError Nat :=
  match st.snapshot with
  | some _ => .ok st.policy.maxVersion
  | none => .error .notReady

/-- The client config's server name indication. -/
def ConfigState.serverNameIndication (st : ConfigState) : Except AccessError String :=
  match st.snapshot with
  | some _ => .ok st.sni
  | none => .error .notReady

/-- Whether server-initiated TLS renegotiation will be allowed. -/
def ConfigState.allowRenegotiation (st : ConfigState) : Except AccessError Bool :=
  match st.snapshot with
  | some _ => .ok st.allowReneg
  | none => .error .notReady

/-- Whether a client certificate is required. -/
def ConfigState.requireClientCertificate (st : ConfigState) : Except AccessError Bool :=
  match st.snapshot with
  | some _ => .ok st.requireClientCert
  | none => .error .notReady

/-- The ordered session ticket keys: first for encrypting new tickets, all as
decryption candidates. -/
def ConfigState.sessionTicketKeys (st : ConfigState) : Except AccessError (List SessionTicketKey) :=
  match st.snapshot with
  | some _ => .ok st.keyring
  | none => .error .notReady

/-! ## Subscription events -/

/-- The events the secret subscription applies to a config: a successful
rebuild installing a complete snapshot, a failed rebuild (fetch error or
parse error), and callback registration. -/
inductive Event where
  | installSnapshot (s : SecretSnapshot)
  | refreshFail
  | setSecretUpdateCallback (id : Nat)
deriving DecidableEq

/-- The event is a successful snapshot install. -/
def isInstallEvent : Event → Bool
  | .installSnapshot _ => true
  | _ => false

/-- Modelled from the spec: a successful rebuild installs the new snapshot
atomically and then invokes the currently-registered callback (if any); a
failed rebuild changes nothing and invokes nothing; registering a callback
replaces the previous one — a single logical slot.  The second component
lists the callback ids invoked by the event. -/
def stepEvent (st : ConfigState) (e : Event) : ConfigState × List Nat :=
  match e with
  | .installSnapshot s => ({ st with snapshot := some s }, st.callback.toList)
  | .refreshFail => (st, [])
  | .setSecretUpdateCallback id => ({ st with callback := some id }, [])

/-- Folds a sequence of subscription events over a config state. -/
def runConfig (st : ConfigState) : List Event → ConfigState
  | [] => st
  | e :: rest => runConfig (stepEvent st e).1 rest

/-- The concatenated invocation log of a sequence of subscription events. -/
def runLog (st : ConfigState) : List Event → List Nat
  | [] => []
  | e :: rest => (stepEvent st e).2 ++ runLog (stepEvent st e).1 rest

/-! ## Accessors as state transformers

To state read-only-ness of the query surface, each accessor is wrapped as a
state transformer returning its result together with the state it leaves
behind. -/

/-- One accessor of the query surface (everything except
`setSecretUpdateCallback` and the subscription/rotation path). -/
inductive Accessor where
  | alpnProtocols
  | altAlpnProtocols
  | cipherSuites
  | ecdhCurves
  | caCert
  | caCertPath
  | certificateRevocationList
  | certificateRevocationListPath
  | tlsCertificate
  | verifySubjectAltNameList
  | verifyCertificateHashList
  | verifyCertificateSpkiList
  | allowExpiredCertificate
  | minProtocolVersion
  | maxProtocolVersion
  | isReady
  | serverNameIndication
  | allowRenegotiation
  | requireClientCertificate
  | sessionTicketKeys
deriving DecidableEq

/-- The value an accessor returns, as one sum over the result types. -/
inductive AccessorValue where
  | str (v : Except AccessError String)
  | bytes (v : Except AccessError (List Nat))
  | strings (v : Except AccessError (List String))
  | flag (v : Except AccessError Bool)
  | version (v : Except AccessError Nat)
  | cert (v : Except AccessError TlsCertificateConfig)
  | keys (v : Except AccessError (List SessionTicketKey))
  | readiness (v : Bool)

/-- The value a given accessor reads from a given state. -/
def accessorValue (a : Accessor) (st : ConfigState) : AccessorValue :=
  match a with
  | .alpnProtocols => .str st.alpnProtocols
  | .altAlpnProtocols => .str st.altAlpnProtocols
  | .cipherSuites => .str st.cipherSuites
  | .ecdhCurves => .str st.ecdhCurves
  | .caCert => .bytes st.caCert
  | .caCertPath => .str st.caCertPath
  | .certificateRevocationList => .bytes st.certificateRevocationList
  | .certificateRevocationListPath => .str st.certificateRevocationListPath
  | .tlsCertificate => .cert st.tlsCertificate
  | .verifySubjectAltNameList => .strings st.verifySubjectAltNameList
  | .verifyCertificateHashList => .strings st.verifyCertificateHashList
  | .verifyCertificateSpkiList => .strings st.verifyCertificateSpkiList
  | .allowExpiredCertificate => .flag st.allowExpiredCertificate
  | .minProtocolVersion => .version st.minProtocolVersion
  | .maxProtocolVersion => .version st.maxProtocolVersion
  | .isReady => .readiness st.isReady
  | .serverNameIndication => .str st.serverNameIndication
  | .allowRenegotiation => .flag st.allowRenegotiation
  | .requireClientCertificate => .flag st.requireClientCertificate
  | .sessionTicketKeys => .keys st.sessionTicketKeys

/-- Running an accessor returns its value and the state it leaves behind; all
access outside the subscription/rotation path is read-only, so the state is
returned unchanged. -/
def runAccessor (a : Accessor) (st : ConfigState) : AccessorValue × ConfigState :=
  (accessorValue a st, st)

/-! ## Concrete fixtures used by witnesses and counterexamples -/

/-- Verification criteria with every filter empty and expiry enforced. -/
def vcAllEmpty : VerificationCriteria :=
  { sanList := [], certHashList := [], spkiList := [], allowExpired := false }

/-- A peer certificate whose not-after date (10) is in the past at time 100. -/
def certStale : PeerCertificate :=
  { subjectAltNames := ["a.example.com"], certHash := "aa", spkiHash := "bb",
    notBefore := 0, notAfter := 10, serial := 0 }

/-- A minimal protocol policy with ordered versions. -/
def policyA : ProtocolPolicy :=
  { minVersion := 1, maxVersion := 3, cipherSuites := "AES128:AES256",
    ecdhCurves := "X25519:P-256", alpn := "h2,http/1.1", altAlpn := "http/1.1" }

/-- A concrete local certificate config supplied from a path. -/
def tlsCertA : TlsCertificateConfig :=
  { certChain := [1, 2, 3], privateKey := [4, 5, 6], source := .path "/etc/certs/a.pem" }

/-- A concrete trust anchor whose CA was inlined and that carries no CRL. -/
def trustA : TrustAnchor :=
  { caCert := [7, 8, 9], caSource := .inlineBytes, crl := none }

/-- A concrete complete snapshot. -/
def snapA : SecretSnapshot := { tlsCert := tlsCertA, trust := trustA }

/-- A freshly constructed config: no snapshot installed, no callback. -/
def stFresh : ConfigState :=
  { policy := policyA, criteria := vcAllEmpty, snapshot := none, callback := none,
    sni := "sni.example.com", allowReneg := false, requireClientCert := true, keyring := [] }

/-- The fresh config after its first successful snapshot install. -/
def stReadyA : ConfigState := { stFresh with snapshot := some snapA }

/-! ## Claim theorems -/

/-- Claim C1, counterexample: as stated, the claim is false on the modelled
`evaluate`.  With every filter empty — so every non-empty filter is vacuously
satisfied — evaluation of an expired certificate at time 100 with
`allowExpired = false` still returns `Fail expired`, not `Pass`: the verdict
is not equivalent to the filters alone. -/
theorem evaluate_pass_iff_filters_counterexample :
    sanFilterSatisfied vcAllEmpty certStale = true ∧
    certHashFilterSatisfied vcAllEmpty certStale = true ∧
    spkiFilterSatisfied vcAllEmpty certStale = true ∧
    ValidationPolicy.evaluate vcAllEmpty none certStale 100 = .fail .expired := by
  decide

/-- Claim C1 (amended): evaluate returns `Pass` iff every non-empty filter
(SAN, certificate hash, SPKI) is satisfied — OR within a filter, empty
filters vacuously satisfied, AND across filters — and additionally the
time-validity check passes (or `allowExpired` is set) and the certificate is
not revoked by a configured CRL; in particular a certificate with a matching
SAN but a non-matching SPKI is rejected, and a certificate matching either of
two configured SAN entries passes. -/
theorem evaluate_pass_iff_filters_time_crl :
    (∀ (vc : VerificationCriteria) (crl : Option (List Nat)) (cert : PeerCertificate) (now : Nat),
      ValidationPolicy.evaluate vc crl cert now = .pass ↔
        (crlRevoked crl cert = false ∧
         (vc.allowExpired = true ∨ timeValid now cert = true) ∧
         sanFilterSatisfied vc cert = true ∧
         certHashFilterSatisfied vc cert = true ∧
         spkiFilterSatisfied vc cert = true)) ∧
    ValidationPolicy.evaluate
      { sanList := ["a.example.com"], certHashList := [], spkiList := ["deadbeef"],
        allowExpired := false }
      none
      { subjectAltNames := ["a.example.com"], certHash := "00", spkiHash := "cafe",
        notBefore := 0, notAfter := 100, serial := 1 }
      50 = .fail .spkiMismatch ∧
    ValidationPolicy.evaluate
      { sanList := ["a.example.com", "b.example.com"], certHashList := [], spkiList := [],
        allowExpired := false }
      none
      { subjectAltNames := ["b.example.com"], certHash := "00", spkiHash := "cafe",
        notBefore := 0, notAfter := 100, serial := 1 }
      50 = .pass := by
  refine ⟨?_, by decide, by decide⟩
  intro vc crl cert now
  unfold ValidationPolicy.evaluate
  cases h1 : crlRevoked crl cert <;>
    cases h2 : vc.allowExpired <;>
    cases h3 : timeValid now cert <;>
    cases h4 : sanFilterSatisfied vc cert <;>
    cases h5 : certHashFilterSatisfied vc cert <;>
    cases h6 : spkiFilterSatisfied vc cert <;>
    simp_all

/-- Claim C2: a failed rebuild (fetch or parse error) leaves the whole config
state unchanged — every accessor, `isReady` included, returns exactly what it
returned before — and invokes no callback. -/
theorem refresh_failure_preserves_state :
    ∀ st : ConfigState,
      stepEvent st Event.refreshFail = (st, []) ∧
      (stepEvent st Event.refreshFail).2 = [] ∧
      ((stepEvent st Event.refreshFail).1).isReady = st.isReady ∧
      ((stepEvent st Event.refreshFail).1).alpnProtocols = st.alpnProtocols ∧
      ((stepEvent st Event.refreshFail).1).altAlpnProtocols = st.altAlpnProtocols ∧
      ((stepEvent st Event.refreshFail).1).cipherSuites = st.cipherSuites ∧
      ((stepEvent st Event.refreshFail).1).ecdhCurves = st.ecdhCurves ∧
      ((stepEvent st Event.refreshFail).1).caCert = st.caCert ∧
      ((stepEvent st Event.refreshFail).1).caCertPath = st.caCertPath ∧
      ((stepEvent st Event.refreshFail).1).certificateRevocationList
        = st.certificateRevocationList ∧
      ((stepEvent st Event.refreshFail).1).certificateRevocationListPath
        = st.certificateRevocationListPath ∧
      ((stepEvent st Event.refreshFail).1).tlsCertificate = st.tlsCertificate ∧
      ((stepEvent st Event.refreshFail).1).verifySubjectAltNameList
        = st.verifySubjectAltNameList ∧
      ((stepEvent st Event.refreshFail).1).verifyCertificateHashList
        = st.verifyCertificateHashList ∧
      ((stepEvent st Event.refreshFail).1).verifyCertificateSpkiList
        = st.verifyCertificateSpkiList ∧
      ((stepEvent st Event.refreshFail).1).allowExpiredCertificate
        = st.allowExpiredCertificate ∧
      ((stepEvent st Event.refreshFail).1).minProtocolVersion = st.minProtocolVersion ∧
      ((stepEvent st Event.refreshFail).1).maxProtocolVersion = st.maxProtocolVersion ∧
      ((stepEvent st Event.refreshFail).1).serverNameIndication = st.serverNameIndication ∧
      ((stepEvent st Event.refreshFail).1).allowRenegotiation = st.allowRenegotiation ∧
      ((stepEvent st Event.refreshFail).1).requireClientCertificate
        = st.requireClientCertificate ∧
      ((stepEvent st Event.refreshFail).1).sessionTicketKeys = st.sessionTicketKeys :=
  fun _ => ⟨rfl, rfl, rfl, rfl, rfl, rfl, rfl, rfl, rfl, rfl, rfl, rfl, rfl, rfl, rfl,
            rfl, rfl, rfl, rfl, rfl, rfl, rfl⟩

lemma stepEvent_ready_of_ready (st : ConfigState) (e : Event) (h : st.isReady = true) :
    ((stepEvent st e).1).isReady = true := by
  cases e with
  | installSnapshot s => simp [stepEvent, ConfigState.isReady]
  | refreshFail => exact h
  | setSecretUpdateCallback id => simpa [stepEvent, ConfigState.isReady] using h

lemma runConfig_ready_of_ready (es : List Event) : ∀ st : ConfigState, st.isReady = true →
    (runConfig st es).isReady = true := by
  induction es with
  | nil => intro st h; exact h
  | cons e rest ih => intro st h; exact ih _ (stepEvent_ready_of_ready st e h)

lemma stepEvent_snapshot_of_not_install (st : ConfigState) (e : Event)
    (h : isInstallEvent e = false) : ((stepEvent st e).1).snapshot = st.snapshot := by
  cases e with
  | installSnapshot s => simp [isInstallEvent] at h
  | refreshFail => rfl
  | setSecretUpdateCallback id => rfl

/-- Claim C3: readiness is monotone — no event takes `isReady` from true to
false — and starting from a not-ready state, a run of subscription events
ends ready iff it contains a successful snapshot install; applied to prefixes
of a trace this says `isReady` is false in every state before the first
install and true in every state afterwards. -/
theorem isReady_monotone_and_first_install :
    (∀ (st : ConfigState) (e : Event),
        st.isReady = true → ((stepEvent st e).1).isReady = true) ∧
    (∀ (st : ConfigState) (es : List Event), st.isReady = false →
        ((runConfig st es).isReady = true ↔ es.any isInstallEvent = true)) := by
  constructor
  · exact stepEvent_ready_of_ready
  · intro st es
    induction es generalizing st with
    | nil => intro h; simp [runConfig, h]
    | cons e rest ih =>
      intro h
      cases he : isInstallEvent e with
      | true =>
        have hready : ((stepEvent st e).1).isReady = true := by
          cases e with
          | installSnapshot s => simp [stepEvent, ConfigState.isReady]
          | refreshFail => simp [isInstallEvent] at he
          | setSecretUpdateCallback id => simp [isInstallEvent] at he
        have hrun : (runConfig (stepEvent st e).1 rest).isReady = true :=
          runConfig_ready_of_ready rest _ hready
        simp [runConfig, hrun, List.any_cons, he]
      | false =>
        have hsnap := stepEvent_snapshot_of_not_install st e he
        have h2 : ((stepEvent st e).1).isReady = false := by
          simpa [ConfigState.isReady, hsnap] using h
        simpa [runConfig, List.any_cons, he] using ih _ h2

/-- Witness for C3 at concrete inputs: a ready state stays ready across a
failed refresh, and a fresh config run through a failed refresh followed by
an install ends ready exactly because the trace contains an install. -/
theorem isReady_monotone_and_first_install_witness :
    (stReadyA.isReady = true ∧
      ((stepEvent stReadyA Event.refreshFail).1).isReady = true) ∧
    (stFresh.isReady = false ∧
      ((runConfig stFresh [Event.refreshFail, Event.installSnapshot snapA]).isReady = true ↔
        [Event.refreshFail, Event.installSnapshot snapA].any isInstallEvent = true)) :=
  ⟨⟨by decide, isReady_monotone_and_first_install.1 stReadyA Event.refreshFail (by decide)⟩,
   ⟨by decide, isReady_monotone_and_first_install.2 stFresh
      [Event.refreshFail, Event.installSnapshot snapA] (by decide)⟩⟩

/-- Claim C7: the callback slot holds exactly one logical callback and the
last registration wins — after registering `a` and then `b`, a successful
snapshot install invokes exactly `b` once, and never invokes `a` (when the
two are distinct). -/
theorem callback_last_registration_wins :
    ∀ (st : ConfigState) (a b : Nat) (s : SecretSnapshot),
      runLog st [Event.setSecretUpdateCallback a, Event.setSecretUpdateCallback b,
        Event.installSnapshot s] = [b] ∧
      (a ≠ b →
        a ∉ runLog st [Event.setSecretUpdateCallback a, Event.setSecretUpdateCallback b,
          Event.installSnapshot s]) := by
  intro st a b s
  constructor
  · rfl
  · intro hab
    have hlog : runLog st [Event.setSecretUpdateCallback a, Event.setSecretUpdateCallback b,
        Event.installSnapshot s] = [b] := rfl
    rw [hlog]
    simp [hab]

/-- Witness for C7 at concrete inputs: registering callbacks 1 then 2 on a
fresh config and installing a snapshot invokes exactly callback 2. -/
theorem callback_last_registration_wins_witness :
    runLog stFresh [Event.setSecretUpdateCallback 1, Event.setSecretUpdateCallback 2,
      Event.installSnapshot snapA] = [2] ∧
    (1 : Nat) ∉ runLog stFresh [Event.setSecretUpdateCallback 1,
      Event.setSecretUpdateCallback 2, Event.installSnapshot snapA] :=
  ⟨(callback_last_registration_wins stFresh 1 2 snapA).1,
   (callback_last_registration_wins stFresh 1 2 snapA).2 (by decide)⟩

lemma decryptFrom_encryptFrom (k : SessionTicketKey) (s : List Nat) :
    ∀ i : Nat, (∀ b ∈ s, b < 256) → decryptFrom k i (encryptFrom k i s) = s := by
  induction s with
  | nil => intro i _; rfl
  | cons b rest ih =>
    intro i h
    have hb : b < 256 := h b (List.mem_cons_self b rest)
    have hrest : ∀ x ∈ rest, x < 256 := fun x hx => h x (List.mem_cons_of_mem b hx)
    have harith : ((b + keyByte k i) % 256 + 256 - keyByte k i % 256) % 256 = b := by omega
    simp only [encryptFrom, decryptFrom]
    rw [harith, ih (i + 1) hrest]

/-- Claim C4: only the head of the ordered key list determines the ticket a
new encryption produces (the tail is irrelevant), and any later keyring that
still selects the encrypting key by its 16-byte name — at whatever index —
decrypts the ticket back to the original session, in particular after the key
at index 0 has been replaced. -/
theorem ticket_encrypt_head_decrypt_by_name :
    (∀ (k : SessionTicketKey) (rest rest2 : List SessionTicketKey) (s : List Nat),
        encryptTicket (k :: rest) s = encryptTicket (k :: rest2) s) ∧
    (∀ (newKeys rest : List SessionTicketKey) (k : SessionTicketKey)
        (s : List Nat) (t : SessionTicket),
        encryptTicket (k :: rest) s = some t →
        newKeys.find? (fun k2 => k2.name_ == t.keyName) = some k →
        (∀ b ∈ s, b < 256) →
        decryptTicket newKeys t = some s) := by
  constructor
  · intro k rest rest2 s
    rfl
  · intro newKeys rest k s t henc hfind hbytes
    have ht : t = { keyName := k.name_, body := encryptFrom k 0 s } := by
      simpa [encryptTicket] using henc.symm
    subst ht
    simp [decryptTicket, hfind, decryptFrom_encryptFrom k s 0 hbytes]

/-- A session ticket key whose 16-byte name is all 1s. -/
def keyW1 : SessionTicketKey :=
  { name_ := List.replicate 16 1, hmac_key_ := List.replicate 32 11,
    aes_key_ := List.replicate 32 21 }

/-- A session ticket key whose 16-byte name is all 2s. -/
def keyW2 : SessionTicketKey :=
  { name_ := List.replicate 16 2, hmac_key_ := List.replicate 32 12,
    aes_key_ := List.replicate 32 22 }

/-- A session ticket key whose 16-byte name is all 3s. -/
def keyW3 : SessionTicketKey :=
  { name_ := List.replicate 16 3, hmac_key_ := List.replicate 32 13,
    aes_key_ := List.replicate 32 23 }

/-- Concrete session bytes. -/
def sessionW : List Nat := [10, 20, 250]

/-- The ticket issued while `keyW3` occupied the encrypt position. -/
def ticketW : SessionTicket := { keyName := keyW3.name_, body := encryptFrom keyW3 0 sessionW }

/-- Witness for C4 at concrete inputs: the tail of the keyring does not
affect encryption, and the ticket issued under `keyW3` still decrypts once
`keyW3` sits at index 2 of a rotated keyring whose index-0 key is new. -/
theorem ticket_encrypt_head_decrypt_by_name_witness :
    encryptTicket [keyW3, keyW1] sessionW = encryptTicket [keyW3, keyW2] sessionW ∧
    decryptTicket [keyW1, keyW2, keyW3] ticketW = some sessionW :=
  ⟨ticket_encrypt_head_decrypt_by_name.1 keyW3 [keyW1] [keyW2] sessionW,
   ticket_encrypt_head_decrypt_by_name.2 [keyW1, keyW2, keyW3] [keyW1] keyW3 sessionW ticketW
     rfl (by decide) (by decide)⟩

/-- Claim C5: construction succeeds exactly for ordered protocol-version
pairs — with `min ≤ max` (and well-formed ticket keys) it returns the config,
with `min > max` it returns a `ConfigValidationError` and never a usable
config — and every successfully loaded config satisfies
`minProtocolVersion ≤ maxProtocolVersion`. -/
theorem construction_validates_protocol_versions :
    ∀ (policy : ProtocolPolicy) (criteria : VerificationCriteria) (sni : String)
      (ar rcc : Bool) (keyring : List SessionTicketKey),
      (policy.minVersion ≤ policy.maxVersion → keyring.all validSessionTicketKey = true →
        mkContextConfig policy criteria sni ar rcc keyring =
          .ok { policy := policy, criteria := criteria, snapshot := none, callback := none,
                sni := sni, allowReneg := ar, requireClientCert := rcc,
                keyring := keyring }) ∧
      (policy.maxVersion < policy.minVersion →
        mkContextConfig policy criteria sni ar rcc keyring =
          .error (.configValidationError
            "min protocol version exceeds max protocol version") ∧
        ∀ st, mkContextConfig policy criteria sni ar rcc keyring ≠ .ok st) ∧
      (∀ st, mkContextConfig policy criteria sni ar rcc keyring = .ok st →
        st.policy.minVersion ≤ st.policy.maxVersion) := by
  intro policy criteria sni ar rcc keyring
  refine ⟨?_, ?_, ?_⟩
  · intro hle hkeys
    rw [mkContextConfig, if_neg (by omega)]
    simp [hkeys]
  · intro hgt
    constructor
    · rw [mkContextConfig, if_pos hgt]
    · intro st h
      rw [mkContextConfig, if_pos hgt] at h
      exact Except.noConfusion h
  · intro st h
    by_cases hv : policy.maxVersion < policy.minVersion
    · rw [mkContextConfig, if_pos hv] at h
      exact Except.noConfusion h
    · rw [mkContextConfig, if_neg hv] at h
      cases hk : keyring.all validSessionTicketKey with
      | false => simp [hk] at h
      | true =>
        simp [hk] at h
        subst h
        simpa using Nat.le_of_not_lt hv

/-- A protocol policy whose minimum version exceeds its maximum. -/
def policyBad : ProtocolPolicy := { policyA with minVersion := 5, maxVersion := 3 }

/-- Witness for C5 at concrete inputs: the ordered policy constructs the
fresh config, the inverted policy is rejected with a validation error and
yields no config. -/
theorem construction_validates_protocol_versions_witness :
    mkContextConfig policyA vcAllEmpty "sni.example.com" false true [] = .ok stFresh ∧
    (mkContextConfig policyBad vcAllEmpty "" false false [] =
      .error (.configValidationError "min protocol version exceeds max protocol version") ∧
      ∀ st, mkContextConfig policyBad vcAllEmpty "" false false [] ≠ .ok st) :=
  ⟨(construction_validates_protocol_versions policyA vcAllEmpty "sni.example.com"
      false true []).1 (by decide) (by decide),
   (construction_validates_protocol_versions policyBad vcAllEmpty "" false false []).2.1
      (by decide)⟩

/-- Claim C6: with `allowExpired = false` a current time outside the
not-before/not-after window (too new or too old) makes evaluation fail; with
`allowExpired = true` the time check is skipped entirely — the verdict does
not depend on the current time at all — and an expired certificate is
admitted whenever the remaining checks pass. -/
theorem allow_expired_time_check :
    ∀ (vc : VerificationCriteria) (crl : Option (List Nat)) (cert : PeerCertificate)
      (now : Nat),
      (vc.allowExpired = false → timeValid now cert = false →
        ValidationPolicy.evaluate vc crl cert now ≠ .pass) ∧
      (vc.allowExpired = true → ∀ now2 : Nat,
        ValidationPolicy.evaluate vc crl cert now = ValidationPolicy.evaluate vc crl cert now2) ∧
      (vc.allowExpired = true → crlRevoked crl cert = false →
        sanFilterSatisfied vc cert = true → certHashFilterSatisfied vc cert = true →
        spkiFilterSatisfied vc cert = true →
        ValidationPolicy.evaluate vc crl cert now = .pass) := by
  intro vc crl cert now
  refine ⟨?_, ?_, ?_⟩
  · intro hae htv
    unfold ValidationPolicy.evaluate
    cases h1 : crlRevoked crl cert <;> simp [h1, hae, htv]
  · intro hae now2
    unfold ValidationPolicy.evaluate
    simp [hae]
  · intro hae hcrl hsan hhash hspki
    unfold ValidationPolicy.evaluate
    simp [hae, hcrl, hsan, hhash, hspki]

/-- Criteria identical to `vcAllEmpty` except that expired certificates are
allowed. -/
def vcAllowExp : VerificationCriteria := { vcAllEmpty with allowExpired := true }

/-- Witness for C6 at concrete inputs: the stale certificate is rejected at
time 100 when expiry is enforced, and with `allowExpired` set the verdict at
time 100 equals the verdict at time 5 and is `Pass`. -/
theorem allow_expired_time_check_witness :
    ValidationPolicy.evaluate vcAllEmpty none certStale 100 ≠ .pass ∧
    ValidationPolicy.evaluate vcAllowExp none certStale 100 =
      ValidationPolicy.evaluate vcAllowExp none certStale 5 ∧
    ValidationPolicy.evaluate vcAllowExp none certStale 100 = .pass :=
  ⟨(allow_expired_time_check vcAllEmpty none certStale 100).1 (by decide) (by decide),
   (allow_expired_time_check vcAllowExp none certStale 100).2.1 (by decide) 5,
   (allow_expired_time_check vcAllowExp none certStale 100).2.2 (by decide) (by decide)
     (by decide) (by decide) (by decide)⟩

/-- A trust anchor whose CA material comes from a filesystem path that is
literally the sentinel string. -/
def trustTricky : TrustAnchor :=
  { caCert := [1], caSource := .path "<inline>", crl := none }

/-- A snapshot carrying the tricky trust anchor. -/
def snapTricky : SecretSnapshot := { tlsCert := tlsCertA, trust := trustTricky }

/-- A ready config whose CA path is literally the sentinel string. -/
def stTricky : ConfigState := { stFresh with snapshot := some snapTricky }

/-- Claim C8, counterexample: `caCertPath` returns the literal sentinel even
though the CA's source tag is `Path`, because the configured path is itself
the string the sentinel uses — the "only if" direction of the claimed
equivalence fails on that input. -/
theorem caCertPath_sentinel_counterexample :
    stTricky.snapshot = some snapTricky ∧
    snapTricky.trust.caSource = SourceTag.path "<inline>" ∧
    snapTricky.trust.caSource ≠ SourceTag.inlineBytes ∧
    stTricky.caCertPath = Except.ok "<inline>" :=
  ⟨rfl, rfl, by decide, rfl⟩

/-- Claim C8 (amended): on a ready config, `caCertPath` returns the literal
sentinel when the CA's source tag is `Inline` and the configured path string
otherwise; the equivalence "result is the sentinel iff the tag is `Inline`"
holds provided the configured path is not itself the literal sentinel string.
The same holds for `certificateRevocationListPath` with respect to a
configured CRL's source tag. -/
theorem caCertPath_sentinel_amended :
    ∀ (st : ConfigState) (snap : SecretSnapshot), st.snapshot = some snap →
      ((snap.trust.caSource = SourceTag.inlineBytes →
          st.caCertPath = Except.ok "<inline>") ∧
       (∀ p, snap.trust.caSource = SourceTag.path p → st.caCertPath = Except.ok p) ∧
       ((∀ p, snap.trust.caSource = SourceTag.path p → p ≠ "<inline>") →
          (st.caCertPath = Except.ok "<inline>" ↔
            snap.trust.caSource = SourceTag.inlineBytes))) ∧
      (∀ (bytes : List Nat) (tag : SourceTag), snap.trust.crl = some (bytes, tag) →
        ((tag = SourceTag.inlineBytes →
            st.certificateRevocationListPath = Except.ok "<inline>") ∧
         (∀ p, tag = SourceTag.path p →
            st.certificateRevocationListPath = Except.ok p) ∧
         ((∀ p, tag = SourceTag.path p → p ≠ "<inline>") →
            (st.certificateRevocationListPath = Except.ok "<inline>" ↔
              tag = SourceTag.inlineBytes)))) := by
  intro st snap hsnap
  constructor
  · refine ⟨?_, ?_, ?_⟩
    · intro htag
      simp [ConfigState.caCertPath, hsnap, htag, sourcePathString]
    · intro p htag
      simp [ConfigState.caCertPath, hsnap, htag, sourcePathString]
    · intro hnp
      cases htag : snap.trust.caSource with
      | inlineBytes => simp [ConfigState.caCertPath, hsnap, htag, sourcePathString]
      | path p =>
        have hp := hnp p htag
        simp [ConfigState.caCertPath, hsnap, htag, sourcePathString, hp]
  · intro bytes tag hcrl
    refine ⟨?_, ?_, ?_⟩
    · intro htag
      simp [ConfigState.certificateRevocationListPath, hsnap, hcrl, htag, sourcePathString]
    · intro p htag
      simp [ConfigState.certificateRevocationListPath, hsnap, hcrl, htag, sourcePathString]
    · intro hnp
      cases htag : tag with
      | inlineBytes =>
        simp [ConfigState.certificateRevocationListPath, hsnap, hcrl, htag, sourcePathString]
      | path p =>
        have hp := hnp p htag
        simp [ConfigState.certificateRevocationListPath, hsnap, hcrl, htag, sourcePathString,
          hp]

/-- A trust anchor with an inlined CA and a path-sourced CRL. -/
def trustB : TrustAnchor :=
  { caCert := [7], caSource := .inlineBytes, crl := some ([9], .path "/etc/crl.pem") }

/-- A snapshot carrying `trustB`. -/
def snapB : SecretSnapshot := { tlsCert := tlsCertA, trust := trustB }

/-- A ready config whose CA is inlined and whose CRL comes from a path. -/
def stReadyB : ConfigState := { stFresh with snapshot := some snapB }

/-- Witness for C8 (amended) at concrete inputs: the inlined CA reports the
sentinel, the equivalence holds for its honest path-free configuration, and
the path-sourced CRL reports its configured path. -/
theorem caCertPath_sentinel_amended_witness :
    stReadyB.caCertPath = Except.ok "<inline>" ∧
    (stReadyB.caCertPath = Except.ok "<inline>" ↔
      snapB.trust.caSource = SourceTag.inlineBytes) ∧
    stReadyB.certificateRevocationListPath = Except.ok "/etc/crl.pem" :=
  ⟨((caCertPath_sentinel_amended stReadyB snapB rfl).1).1 rfl,
   ((caCertPath_sentinel_amended stReadyB snapB rfl).1).2.2
     (fun p hp => SourceTag.noConfusion hp),
   (((caCertPath_sentinel_amended stReadyB snapB rfl).2 [9]
       (SourceTag.path "/etc/crl.pem") rfl)).2.1 "/etc/crl.pem" rfl⟩

/-- Claim C9: on a config that is not ready (no snapshot was ever installed),
every accessor of the query surface returns an explicit `notReady` error,
never a silently returned default or empty value. -/
theorem accessors_error_before_ready :
    ∀ st : ConfigState, st.isReady = false →
      st.alpnProtocols = .error .notReady ∧
      st.altAlpnProtocols = .error .notReady ∧
      st.cipherSuites = .error .notReady ∧
      st.ecdhCurves = .error .notReady ∧
      st.caCert = .error .notReady ∧
      st.caCertPath = .error .notReady ∧
      st.certificateRevocationList = .error .notReady ∧
      st.certificateRevocationListPath = .error .notReady ∧
      st.tlsCertificate = .error .notReady ∧
      st.verifySubjectAltNameList = .error .notReady ∧
      st.verifyCertificateHashList = .error .notReady ∧
      st.verifyCertificateSpkiList = .error .notReady ∧
      st.allowExpiredCertificate = .error .notReady ∧
      st.minProtocolVersion = .error .notReady ∧
      st.maxProtocolVersion = .error .notReady ∧
      st.serverNameIndication = .error .notReady ∧
      st.allowRenegotiation = .error .notReady ∧
      st.requireClientCertificate = .error .notReady ∧
      st.sessionTicketKeys = .error .notReady := by
  intro st h
  have hs : st.snapshot = none := by
    cases hsnap : st.snapshot with
    | none => rfl
    | some s => rw [ConfigState.isReady, hsnap] at h; simp at h
  simp [hs, ConfigState.alpnProtocols, ConfigState.altAlpnProtocols, ConfigState.cipherSuites,
    ConfigState.ecdhCurves, ConfigState.caCert, ConfigState.caCertPath,
    ConfigState.certificateRevocationList, ConfigState.certificateRevocationListPath,
    ConfigState.tlsCertificate, ConfigState.verifySubjectAltNameList,
    ConfigState.verifyCertificateHashList, ConfigState.verifyCertificateSpkiList,
    ConfigState.allowExpiredCertificate, ConfigState.minProtocolVersion,
    ConfigState.maxProtocolVersion, ConfigState.serverNameIndication,
    ConfigState.allowRenegotiation, ConfigState.requireClientCertificate,
    ConfigState.sessionTicketKeys]

/-- Witness for C9 at a concrete input: every accessor of the freshly
constructed (never-installed) config reports `notReady`. -/
theorem accessors_error_before_ready_witness :
    stFresh.alpnProtocols = .error .notReady ∧
    stFresh.altAlpnProtocols = .error .notReady ∧
    stFresh.cipherSuites = .error .notReady ∧
    stFresh.ecdhCurves = .error .notReady ∧
    stFresh.caCert = .error .notReady ∧
    stFresh.caCertPath = .error .notReady ∧
    stFresh.certificateRevocationList = .error .notReady ∧
    stFresh.certificateRevocationListPath = .error .notReady ∧
    stFresh.tlsCertificate = .error .notReady ∧
    stFresh.verifySubjectAltNameList = .error .notReady ∧
    stFresh.verifyCertificateHashList = .error .notReady ∧
    stFresh.verifyCertificateSpkiList = .error .notReady ∧
    stFresh.allowExpiredCertificate = .error .notReady ∧
    stFresh.minProtocolVersion = .error .notReady ∧
    stFresh.maxProtocolVersion = .error .notReady ∧
    stFresh.serverNameIndication = .error .notReady ∧
    stFresh.allowRenegotiation = .error .notReady ∧
    stFresh.requireClientCertificate = .error .notReady ∧
    stFresh.sessionTicketKeys = .error .notReady :=
  accessors_error_before_ready stFresh (by decide)

/-- Claim C10: every accessor of the query surface is read-only — it leaves
the config state unchanged, so reading one accessor and then another returns
exactly what the second returns alone, and two consecutive reads of the same
accessor with no intervening install return equal values. -/
theorem accessors_read_only :
    (∀ (a : Accessor) (st : ConfigState), (runAccessor a st).2 = st) ∧
    (∀ (a b : Accessor) (st : ConfigState),
      (runAccessor b ((runAccessor a st).2)).1 = (runAccessor b st).1) ∧
    (∀ (a : Accessor) (st : ConfigState),
      (runAccessor a ((runAccessor a st).2)).1 = (runAccessor a st).1) :=
  ⟨fun _ _ => rfl, fun _ _ _ => rfl, fun _ _ => rfl⟩

end Ssl
end Envoy
